import Mathlib

/-!
Verification development for the FCON 2025 IoToys Arduino workshop sketches.

The sketches are single-threaded polling loops; every handler reads the
millisecond clock (`millis()`, an `unsigned long`), compares elapsed time
against per-task intervals, and updates a small set of global variables.
We embed each sketch's security-relevant globals as a structure and each
handler as a pure state-transition function translated line by line from
the `.ino` source.  Machine `unsigned long` values are represented as `Nat`
with the 32-bit wrap made explicit where the code subtracts timestamps.
-/

namespace IoToys

/-- 32-bit unsigned subtraction `a - b` as performed by the C expressions
`millis() - lastX` on `unsigned long` operands (Arduino Uno: 32 bits). -/
def usub32 (a b : Nat) : Nat :=
  (a + (2 ^ 32 - b % 2 ^ 32)) % 2 ^ 32

namespace Phase4
/-!
Embedding of `src/phase4_security_system/phase4_security_system.ino`
(the security/passcode state machine; identical logic is repeated in
`src/phase5_complete_system/phase5_complete_system.ino`, lines 587-707).

Only the globals the security logic reads or writes are modelled; the
LCD text, serial prints and LED writes are output-only and are omitted,
except that their blocking `delay(...)` calls are accounted for by the
`...DelayMs` cost functions further below.  The ghost field `grantCount`
counts invocations of `grantAccess`.

Within one `loop()` iteration the code calls `millis()` several times;
the model uses the single event time `t` for all of them (the clock can
only advance between modelled events).
-/

/-- `#define DEFAULT_PASSCODE "1234*"` -/
def DEFAULT_PASSCODE : List Char := ['1', '2', '3', '4', '*']

/-- `#define MAX_PASSCODE_LENGTH 6` -/
def MAX_PASSCODE_LENGTH : Nat := 6

/-- `#define MAX_FAILED_ATTEMPTS 3` -/
def MAX_FAILED_ATTEMPTS : Nat := 3

/-- `#define KEYPAD_TIMEOUT 10000` -/
def KEYPAD_TIMEOUT : Nat := 10000

/-- `#define INACTIVITY_TIMEOUT 60000` -/
def INACTIVITY_TIMEOUT : Nat := 60000

/-- `#define LOCKOUT_DURATION 30000` -/
def LOCKOUT_DURATION : Nat := 30000

/-- The security-system globals of the phase-4 sketch (lines 200-207),
plus the ghost counter `grantCount`. -/
structure SecState where
  systemUnlocked : Bool
  enteredPasscode : List Char
  lastKeypadActivity : Nat
  lastSystemActivity : Nat
  failedAttempts : Nat
  systemLockedOut : Bool
  lockoutStartTime : Nat
  grantCount : Nat
deriving Repr, DecidableEq

/-- `clearEntry()` (line 437). -/
def clearEntry (s : SecState) : SecState :=
  { s with enteredPasscode := [] }

/-- `grantAccess()` (line 343): unlock, reset the failed-attempt counter,
record activity.  The LED/LCD feedback is output-only.  `grantCount` is a
ghost counter of invocations. -/
def grantAccess (s : SecState) (t : Nat) : SecState :=
  { s with systemUnlocked := true, failedAttempts := 0,
           lastSystemActivity := t, grantCount := s.grantCount + 1 }

/-- `lockoutSystem()` (line 396). -/
def lockoutSystem (s : SecState) (t : Nat) : SecState :=
  { s with systemLockedOut := true, lockoutStartTime := t }

/-- `denyAccess()` (line 367): increment `failedAttempts`, then lock out
once `failedAttempts >= MAX_FAILED_ATTEMPTS`. -/
def denyAccess (s : SecState) (t : Nat) : SecState :=
  let s1 := { s with failedAttempts := s.failedAttempts + 1 }
  if MAX_FAILED_ATTEMPTS ≤ s1.failedAttempts then lockoutSystem s1 t else s1

/-- `checkPasscode()` (line 330). -/
def checkPasscode (s : SecState) (t : Nat) : SecState :=
  let s1 := if s.enteredPasscode = DEFAULT_PASSCODE
            then grantAccess s t else denyAccess s t
  clearEntry s1

/-- The auto-clear check at the end of `handleKeypadInput()` (line 325):
`if (!enteredPasscode.isEmpty() && (millis() - lastKeypadActivity > KEYPAD_TIMEOUT)) clearEntry();` -/
def autoClear (s : SecState) (t : Nat) : SecState :=
  if s.enteredPasscode ≠ [] ∧ KEYPAD_TIMEOUT < usub32 t s.lastKeypadActivity
  then clearEntry s else s

/-- `handleKeypadInput()` (lines 295-328).  `key = none` models
`keypad.getKey()` returning `NO_KEY`.  During lockout a pressed key still
refreshes the activity timestamps but is otherwise ignored (the early
`return` also skips the auto-clear check). -/
def handleKeypadInput (s : SecState) (key : Option Char) (t : Nat) : SecState :=
  match key with
  | some c =>
      let s1 := { s with lastKeypadActivity := t, lastSystemActivity := t }
      if s1.systemLockedOut then s1
      else
        let s2 :=
          if c = '#' then clearEntry s1
          else if c = '*' then checkPasscode s1 t
          else if s1.enteredPasscode.length < MAX_PASSCODE_LENGTH - 1 then
            { s1 with enteredPasscode := s1.enteredPasscode ++ [c] }
          else s1
        autoClear s2 t
  | none => autoClear s t

/-- `handleLockout()` (lines 415-435). -/
def handleLockout (s : SecState) (t : Nat) : SecState :=
  if LOCKOUT_DURATION ≤ usub32 t s.lockoutStartTime then
    { s with systemLockedOut := false, failedAttempts := 0 }
  else s

/-- `lockSystem()` (line 442). -/
def lockSystem (s : SecState) : SecState :=
  clearEntry { s with systemUnlocked := false }

/-- `handleSecuritySystem()` (lines 268-293): keypad input, then lockout
handling, then the inactivity timeout; the sensor dashboard and the
passcode-entry display touch none of the modelled state. -/
def handleSecuritySystem (s : SecState) (key : Option Char) (t : Nat) : SecState :=
  let s1 := handleKeypadInput s key t
  if s1.systemLockedOut then handleLockout s1 t
  else if s1.systemUnlocked = true ∧ INACTIVITY_TIMEOUT < usub32 t s1.lastSystemActivity
  then lockSystem s1
  else s1

/-- One observable event of the phase-4 main loop: a (possibly absent)
keypad key together with the value of `millis()` at that iteration. -/
structure SecEvent where
  key : Option Char
  time : Nat
deriving Repr, DecidableEq

/-- Iterated main-loop execution of `handleSecuritySystem`. -/
def securityRun (s : SecState) (evs : List SecEvent) : SecState :=
  evs.foldl (fun st ev => handleSecuritySystem st ev.key ev.time) s

/-- The security state established by `setup()` (lines 241-248):
locked, empty entry, zero failed attempts, no lockout; the activity
timestamps are initialised to the boot-time `millis()` value `t0`. -/
def initialSecState (t0 : Nat) : SecState :=
  { systemUnlocked := false, enteredPasscode := [],
    lastKeypadActivity := t0, lastSystemActivity := t0,
    failedAttempts := 0, systemLockedOut := false,
    lockoutStartTime := 0, grantCount := 0 }

/-- Safety invariant of the keypad state machine: the accumulated entry
never contains the confirm key `'*'`, the system has never been
unlocked, and `grantAccess` has never run. -/
def SecInv (s : SecState) : Prop :=
  '*' ∉ s.enteredPasscode ∧ s.systemUnlocked = false ∧ s.grantCount = 0

end Phase4

namespace Phase3
/-!
Embedding of the phase-3 proximity-alarm sketch (`src/unnamed/part_006`,
lines 166-570): 4-digit 7-segment distance display, car-backup buzzer
with a distance-dependent beep interval, mute button, proximity LED.

`measureDistance()` performs ultrasonic I/O; its result (a nonnegative
`long`, 0 on timeout) enters the model as the per-iteration input
`measured : Nat`.  Serial prints are omitted.
-/

/-- The Arduino `map(x, in_min, in_max, out_min, out_max)` function:
`(x - in_min) * (out_max - out_min) / (in_max - in_min) + out_min`
over `long` operands (in the sketch every operand is nonnegative, so
the C truncating division agrees with every integer division). -/
def arduinoMap (x inMin inMax outMin outMax : Int) : Int :=
  (x - inMin) * (outMax - outMin) / (inMax - inMin) + outMin

/-- `byte numbers[10]` (lines 264-275): segment patterns for digits 0-9. -/
def numbers : List Nat :=
  [0b11111100, 0b01100000, 0b11011010, 0b11110010, 0b01100110,
   0b10110110, 0b10111110, 0b11100000, 0b11111110, 0b11110110]

/-- The globals of the proximity-alarm sketch (lines 242-261) that the
loop reads or writes, plus `ledPin`/`buzzerPin` output latches and the
ghost field `lastShifted`, the segment pattern most recently sent to the
shift register by `display_number()` (`none` if the lookup would read out
of bounds). -/
structure AlarmState where
  count : Nat
  digits : List Nat
  distance : Nat
  buzzerState : Bool
  muteEnabled : Bool
  lastButtonState : Bool
  buzzerPin : Bool
  ledPin : Bool
  previousDisplayMillis : Nat
  previousSensorMillis : Nat
  previousBuzzerMillis : Nat
  buzzerInterval : Nat
  lastShifted : Option Nat
deriving Repr, DecidableEq

/-- `const unsigned long displayInterval = 2` -/
def displayInterval : Nat := 2

/-- `const unsigned long sensorInterval = 100` -/
def sensorInterval : Nat := 100

/-- `break_number(long num)` (lines 394-400): split into 4 digits. -/
def break_number (num : Nat) : List Nat :=
  [num / 1000, num / 100 % 10, num / 10 % 10, num % 10]

/-- The clamp in `loop()` (lines 326-328):
`if (distance > 9999) distance = 9999;` -/
def clampDistance (d : Nat) : Nat :=
  if 9999 < d then 9999 else d

/-- `display_number()` (lines 402-416): shift out the pattern for the
digit at index `count`, then advance `count` (wrapping 4 to 0). -/
def display_number (s : AlarmState) : AlarmState :=
  let shifted := (s.digits.get? s.count).bind fun d => numbers.get? d
  let c := s.count + 1
  { s with lastShifted := shifted, count := if c = 4 then 0 else c }

/-- `toggleMute()` (lines 439-452): flip `muteEnabled`; when muting,
force the buzzer off immediately. -/
def toggleMute (s : AlarmState) : AlarmState :=
  let s1 := { s with muteEnabled := !s.muteEnabled }
  if s1.muteEnabled then { s1 with buzzerPin := false, buzzerState := false }
  else s1

/-- `readMuteButton()` (lines 426-437): plain edge detection, no
debounce timer.  `buttonPressed` is `digitalRead(muteButtonPin) == LOW`. -/
def readMuteButton (s : AlarmState) (buttonPressed : Bool) : AlarmState :=
  let s1 := if buttonPressed && !s.lastButtonState then toggleMute s else s
  { s1 with lastButtonState := buttonPressed }

/-- `handleCarBackupBuzzer()` (lines 454-488). -/
def handleCarBackupBuzzer (s : AlarmState) : AlarmState :=
  if s.muteEnabled then
    { s with buzzerState := false, buzzerPin := false }
  else if s.distance ≤ 10 ∧ 2 ≤ s.distance then
    let iv0 := (arduinoMap (s.distance : Int) 2 10 100 800).toNat
    let iv := if iv0 < 100 then 100 else iv0
    { s with buzzerInterval := iv,
             buzzerState := !s.buzzerState, buzzerPin := !s.buzzerState }
  else if s.distance < 2 ∧ 0 < s.distance then
    { s with buzzerPin := true, buzzerState := true }
  else
    { s with buzzerState := false, buzzerPin := false, buzzerInterval := 200 }

/-- The sensor task body inside `loop()` (lines 321-355): record the
reading time, clamp the measured distance to 9999, split it into digits,
drive the LED (`distance <= 5`). -/
def sensorTask (s : AlarmState) (t : Nat) (measured : Nat) : AlarmState :=
  let d := clampDistance measured
  { s with previousSensorMillis := t, distance := d,
           digits := break_number d, ledPin := decide (d ≤ 5) }

/-- The gated sensor block of `loop()` (lines 321-355):
`if (currentMillis - previousSensorMillis >= sensorInterval) { previousSensorMillis = currentMillis; ... }` -/
def sensorStage (s : AlarmState) (t : Nat) (measured : Nat) : AlarmState :=
  if sensorInterval ≤ usub32 t s.previousSensorMillis
  then sensorTask s t measured else s

/-- The gated display block of `loop()` (lines 357-361):
`if (currentMillis - previousDisplayMillis >= displayInterval) { previousDisplayMillis = currentMillis; display_number(); }` -/
def displayStage (s : AlarmState) (t : Nat) : AlarmState :=
  if displayInterval ≤ usub32 t s.previousDisplayMillis
  then display_number { s with previousDisplayMillis := t } else s

/-- The gated buzzer block of `loop()` (lines 363-367):
`if (currentMillis - previousBuzzerMillis >= buzzerInterval) { previousBuzzerMillis = currentMillis; handleCarBackupBuzzer(); }` -/
def buzzerStage (s : AlarmState) (t : Nat) : AlarmState :=
  if s.buzzerInterval ≤ usub32 t s.previousBuzzerMillis
  then handleCarBackupBuzzer { s with previousBuzzerMillis := t } else s

/-- One iteration of the proximity-alarm `loop()` (lines 314-368) at
`millis() = t`, with the ultrasonic reading `measured` and the sampled
button level `buttonPressed`: button sampling followed by the three
gated task blocks, in source order. -/
def loopStep (s : AlarmState) (t : Nat) (measured : Nat) (buttonPressed : Bool) :
    AlarmState :=
  buzzerStage (displayStage (sensorStage (readMuteButton s buttonPressed) t measured) t) t

/-- Display-safety invariant: `digits` holds exactly 4 digits, each in
`0..9`, and the multiplexing index `count` is in `0..3`. -/
def DigitsInv (s : AlarmState) : Prop :=
  s.digits.length = 4 ∧ (∀ x ∈ s.digits, x < 10) ∧ s.count < 4

end Phase3

namespace Phase2
/-!
Embedding of `src/phase2-button-buzzer/phase2_button_buzzer.ino`:
a toggle button (edge detection on pin 8, `INPUT_PULLUP`), an LED and a
200 ms buzzer beep timed against `millis()`.
-/

/-- `#define BUZZER_BEEP_DURATION 200` -/
def BUZZER_BEEP_DURATION : Nat := 200

/-- The phase-2 globals (lines 51-55) plus the ghost counter `presses`,
the number of times a press has been registered (i.e. the number of
`toggleLED(); triggerBuzzer();` executions).  Note `setup()` leaves
`lastButtonState` at its initialiser `HIGH`, i.e. `true`. -/
structure P2State where
  ledState : Bool
  lastButtonState : Bool
  buzzerActive : Bool
  lastBeepTime : Nat
  presses : Nat
deriving Repr, DecidableEq

/-- The phase-2 globals as initialised at boot (lines 51-55, 71-74). -/
def p2Init : P2State :=
  { ledState := false, lastButtonState := true, buzzerActive := false,
    lastBeepTime := 0, presses := 0 }

/-- `readButton()` (lines 98-111) at `millis() = t` with the sampled
level `buttonPressed = (digitalRead(BUTTON_PIN) == LOW)`: on a
not-pressed-to-pressed transition run `toggleLED()` and
`triggerBuzzer()` (lines 113-129). -/
def readButton (s : P2State) (buttonPressed : Bool) (t : Nat) : P2State :=
  let s1 := if buttonPressed && !s.lastButtonState then
      { s with ledState := !s.ledState, buzzerActive := true,
               lastBeepTime := t, presses := s.presses + 1 }
    else s
  { s1 with lastButtonState := buttonPressed }

/-- `handleBuzzer()` (lines 131-137). -/
def handleBuzzer (s : P2State) (t : Nat) : P2State :=
  if s.buzzerActive = true ∧ BUZZER_BEEP_DURATION ≤ usub32 t s.lastBeepTime
  then { s with buzzerActive := false } else s

/-- Iterated `loop()` button sampling: fold `readButton` over a trace of
(sampled level, `millis()` value) pairs. -/
def readButtonRun (s : P2State) (trace : List (Bool × Nat)) : P2State :=
  trace.foldl (fun st p => readButton st p.1 p.2) s

end Phase2

namespace Phase5
/-!
Embedding of the stepper-motor part of
`src/phase5_complete_system/phase5_complete_system.ino` (lines 441-491).

`stepper.step(±1)` commands are recorded as a ghost list of `Int`s; the
`delayMicroseconds(...)` call after each step is accumulated as a ghost
microsecond cost (third component), witnessing that the movement blocks
the main loop for its whole duration.
-/

/-- The motor globals the movement logic reads or writes. -/
structure MotorState where
  currentMotorPosition : Int
  motorMoving : Bool
deriving Repr, DecidableEq

/-- One `for` loop of `stepMotor` issuing `n` single-step commands:
each iteration steps `+1` and increments the position when
`direction > 0`, else steps `-1` and decrements it, then blocks for
`delayUs` microseconds.  Returns (final position, commands, total delay). -/
def stepPhase (pos : Int) (n : Nat) (direction : Int) (delayUs : Nat) :
    Int × List Int × Nat :=
  match n with
  | 0 => (pos, [], 0)
  | k + 1 =>
      let cmd : Int := if 0 < direction then 1 else -1
      let r := stepPhase (pos + cmd) k direction delayUs
      (r.1, cmd :: r.2.1, delayUs + r.2.2)

/-- `stepMotor(int steps, int direction)` (lines 441-491); `steps` is
nonnegative at both call sites (lines 421 and 437), so it is modelled as
`Nat`.  Acceleration and deceleration phases of `min(steps / 4, 50)`
steps (2000 us per step) bracket a constant-speed phase
(1000 us per step); `motorMoving` guards against re-entry and is reset
on completion. -/
def stepMotor (s : MotorState) (steps : Nat) (direction : Int) :
    MotorState × List Int × Nat :=
  if s.motorMoving then (s, [], 0)
  else
    let accelerationSteps := min (steps / 4) 50
    let decelerationSteps := min (steps / 4) 50
    let constantSteps := steps - accelerationSteps - decelerationSteps
    let r1 := stepPhase s.currentMotorPosition accelerationSteps direction 2000
    let r2 := stepPhase r1.1 constantSteps direction 1000
    let r3 := stepPhase r2.1 decelerationSteps direction 2000
    ({ currentMotorPosition := r3.1, motorMoving := false },
     r1.2.1 ++ r2.2.1 ++ r3.2.1, r1.2.2 + r2.2.2 + r3.2.2)

/-- `#define STEPS_PER_90_DEGREES 1024` (line 175), the step count of
every automatic movement (line 421). -/
def STEPS_PER_90_DEGREES : Nat := 1024

end Phase5

namespace Phase4
/-!
Embedding of the phase-4 sensor dashboard (`handleSensorDashboard`,
lines 480-496, and `readAllSensors`, lines 498-530).

DHT float readings are modelled as `Option Rat` (`none` stands for a
`NaN` result, so `!isnan(x)` becomes `x` being `some _`); the stored
`float` temperature/humidity/distance values are modelled as `Rat`.
`readUltrasonicDistance()` and `analogRead(...)` perform I/O; their
results enter `readAllSensors` as inputs.  `checkAlertConditions()`,
`updateStatusLEDs()` and `updateLCDDisplay()` write only the alert
flags, LEDs and LCD, not the fields modelled here; the display-rotation
timestamp is included because it is part of the cooperative schedule.
-/

/-- `#define SENSOR_READ_INTERVAL 1000` -/
def SENSOR_READ_INTERVAL : Nat := 1000

/-- `#define DISPLAY_ROTATION_INTERVAL 3000` -/
def DISPLAY_ROTATION_INTERVAL : Nat := 3000

/-- The sensor-dashboard globals (lines 183-198) read or written by
`readAllSensors` and the scheduling part of `handleSensorDashboard`. -/
structure DashState where
  temperature : Rat
  humidity : Rat
  distance : Rat
  waterLevel : Int
  sensorDataValid : Bool
  lastSensorRead : Nat
  lastDisplayUpdate : Nat
deriving Repr, DecidableEq

/-- `readAllSensors()` (lines 498-530): adopt the DHT readings only when
neither is NaN; the ultrasonic and water reads always proceed and
`sensorDataValid` is set unconditionally. -/
def readAllSensors (s : DashState) (newTemp newHumidity : Option Rat)
    (ultra : Rat) (water : Int) : DashState :=
  let s1 := match newTemp, newHumidity with
    | some tv, some hv => { s with temperature := tv, humidity := hv }
    | _, _ => s
  { s1 with distance := ultra, waterLevel := water, sensorDataValid := true }

/-- The gated sensor-read block of `handleSensorDashboard()`
(lines 484-489): read all sensors once `SENSOR_READ_INTERVAL` has
elapsed and stamp `lastSensorRead` (`checkAlertConditions` and
`updateStatusLEDs` touch only alert flags and LEDs, not modelled
fields). -/
def sensorReadStage (s : DashState) (t : Nat)
    (newTemp newHumidity : Option Rat) (ultra : Rat) (water : Int) : DashState :=
  if SENSOR_READ_INTERVAL ≤ usub32 t s.lastSensorRead
  then { readAllSensors s newTemp newHumidity ultra water with
         lastSensorRead := t }
  else s

/-- The gated display-rotation block of `handleSensorDashboard()`
(lines 492-495) (`updateLCDDisplay` is output-only on the modelled
fields). -/
def displayRotationStage (s : DashState) (t : Nat) : DashState :=
  if DISPLAY_ROTATION_INTERVAL ≤ usub32 t s.lastDisplayUpdate
  then { s with lastDisplayUpdate := t } else s

/-- The scheduling skeleton of `handleSensorDashboard()` (lines 480-496)
at `millis() = t`: the two gated blocks in source order. -/
def handleSensorDashboard (s : DashState) (t : Nat)
    (newTemp newHumidity : Option Rat) (ultra : Rat) (water : Int) : DashState :=
  displayRotationStage (sensorReadStage s t newTemp newHumidity ultra water) t

/-!
Blocking-delay costs.  Each function below sums the arguments of the
`delay(...)` calls (in milliseconds) executed on the corresponding path
of the phase-4/phase-5 source; the main loop does not run during these.
-/

/-- Total `delay(...)` milliseconds executed by `grantAccess()`
(lines 343-365): `delay(1000)` after the green LED, plus `delay(2000)`
after the LCD message when the LCD is initialised. -/
def grantAccessDelayMs (lcdInitialized : Bool) : Nat :=
  1000 + (if lcdInitialized then 2000 else 0)

/-- Total `delay(...)` milliseconds executed by `denyAccess()`
(lines 367-394): three red-LED blinks of `delay(200); ... delay(200)`
plus `delay(2000)` after the LCD message when the LCD is initialised
(the lockout path adds no further delay). -/
def denyAccessDelayMs (lcdInitialized : Bool) : Nat :=
  3 * (200 + 200) + (if lcdInitialized then 2000 else 0)

end Phase4

namespace Clock
/-!
The millisecond clock itself.  `millis()` is Arduino-core code, not part
of this repository.
-/

/-- Modelled from the spec: the Arduino `millis()` clock — the spec
describes "a monotonically increasing millisecond clock" that is
"a 32-bit millisecond counter" compared via "unsigned subtractions".
`millisRead t` is the value the sketch reads when the true elapsed time
since power-on is `t` milliseconds: the counter truncated to 32 bits. -/
def millisRead (t : Nat) : Nat :=
  t % 2 ^ 32

end Clock

/-! ### Helper lemmas -/

theorem usub32_self (t : Nat) : usub32 t t = 0 := by
  unfold usub32
  omega

theorem usub32_eq_sub {a b : Nat} (hb : b ≤ a) (ha : a < 2 ^ 32) :
    usub32 a b = a - b := by
  unfold usub32
  omega

namespace Phase4

theorem secInv_clearEntry {s : SecState} (h : SecInv s) : SecInv (clearEntry s) := by
  unfold SecInv clearEntry at *
  simp_all

theorem secInv_autoClear {s : SecState} (t : Nat) (h : SecInv s) :
    SecInv (autoClear s t) := by
  unfold autoClear
  split
  · exact secInv_clearEntry h
  · exact h

theorem secInv_denyAccess {s : SecState} (t : Nat) (h : SecInv s) :
    SecInv (denyAccess s t) := by
  unfold SecInv denyAccess lockoutSystem at *
  dsimp only
  split <;> simp_all

theorem secInv_checkPasscode {s : SecState} (t : Nat) (h : SecInv s) :
    SecInv (checkPasscode s t) := by
  have hne : s.enteredPasscode ≠ DEFAULT_PASSCODE := by
    intro he
    exact h.1 (he ▸ (by decide : '*' ∈ DEFAULT_PASSCODE))
  unfold checkPasscode
  rw [if_neg hne]
  exact secInv_clearEntry (secInv_denyAccess t h)

theorem secInv_handleKeypadInput {s : SecState} (key : Option Char) (t : Nat)
    (h : SecInv s) : SecInv (handleKeypadInput s key t) := by
  cases key with
  | none => exact secInv_autoClear t h
  | some c =>
      have h1 : SecInv { s with lastKeypadActivity := t, lastSystemActivity := t } := h
      dsimp only [handleKeypadInput]
      split
      · exact h1
      · apply secInv_autoClear
        split
        · exact secInv_clearEntry h1
        · split
          · exact secInv_checkPasscode t h1
          · split
            · obtain ⟨hstar, hu, hg⟩ := h1
              refine ⟨?_, hu, hg⟩
              simp only [List.mem_append, List.mem_singleton]
              rintro (hmem | rfl)
              · exact hstar hmem
              · simp_all
            · exact h1

theorem secInv_handleLockout {s : SecState} (t : Nat) (h : SecInv s) :
    SecInv (handleLockout s t) := by
  unfold SecInv handleLockout at *
  split <;> simp_all

theorem secInv_lockSystem {s : SecState} (h : SecInv s) : SecInv (lockSystem s) := by
  unfold SecInv lockSystem clearEntry at *
  simp_all

theorem secInv_step {s : SecState} (key : Option Char) (t : Nat) (h : SecInv s) :
    SecInv (handleSecuritySystem s key t) := by
  have h1 := secInv_handleKeypadInput (s := s) key t h
  dsimp only [handleSecuritySystem]
  split
  · exact secInv_handleLockout t h1
  · split
    · exact secInv_lockSystem h1
    · exact h1

theorem secInv_securityRun {s : SecState} (evs : List SecEvent) (h : SecInv s) :
    SecInv (securityRun s evs) := by
  induction evs generalizing s with
  | nil => exact h
  | cons e es ih =>
      have : securityRun s (e :: es) =
          securityRun (handleSecuritySystem s e.key e.time) es := rfl
      rw [this]
      exact ih (secInv_step e.key e.time h)

end Phase4

namespace Phase3

theorem readMuteButton_noPress (s : AlarmState) :
    readMuteButton s false = { s with lastButtonState := false } := by
  unfold readMuteButton
  simp

theorem readMuteButton_fields (s : AlarmState) (b : Bool) :
    (readMuteButton s b).previousSensorMillis = s.previousSensorMillis ∧
    (readMuteButton s b).previousDisplayMillis = s.previousDisplayMillis ∧
    (readMuteButton s b).previousBuzzerMillis = s.previousBuzzerMillis ∧
    (readMuteButton s b).buzzerInterval = s.buzzerInterval ∧
    (readMuteButton s b).distance = s.distance ∧
    (readMuteButton s b).digits = s.digits ∧
    (readMuteButton s b).count = s.count := by
  unfold readMuteButton toggleMute
  dsimp only
  split_ifs <;> simp

theorem sensorStage_pos {s : AlarmState} {t : Nat} (m : Nat)
    (h : sensorInterval ≤ usub32 t s.previousSensorMillis) :
    sensorStage s t m = sensorTask s t m := by
  unfold sensorStage
  rw [if_pos h]

theorem sensorStage_neg {s : AlarmState} {t : Nat} (m : Nat)
    (h : ¬ sensorInterval ≤ usub32 t s.previousSensorMillis) :
    sensorStage s t m = s := by
  unfold sensorStage
  rw [if_neg h]

theorem displayStage_pos {s : AlarmState} {t : Nat}
    (h : displayInterval ≤ usub32 t s.previousDisplayMillis) :
    displayStage s t = display_number { s with previousDisplayMillis := t } := by
  unfold displayStage
  rw [if_pos h]

theorem displayStage_neg {s : AlarmState} {t : Nat}
    (h : ¬ displayInterval ≤ usub32 t s.previousDisplayMillis) :
    displayStage s t = s := by
  unfold displayStage
  rw [if_neg h]

theorem buzzerStage_pos {s : AlarmState} {t : Nat}
    (h : s.buzzerInterval ≤ usub32 t s.previousBuzzerMillis) :
    buzzerStage s t = handleCarBackupBuzzer { s with previousBuzzerMillis := t } := by
  unfold buzzerStage
  rw [if_pos h]

theorem buzzerStage_neg {s : AlarmState} {t : Nat}
    (h : ¬ s.buzzerInterval ≤ usub32 t s.previousBuzzerMillis) :
    buzzerStage s t = s := by
  unfold buzzerStage
  rw [if_neg h]

theorem sensorTask_fields (s : AlarmState) (t m : Nat) :
    (sensorTask s t m).previousSensorMillis = t ∧
    (sensorTask s t m).distance = clampDistance m ∧
    (sensorTask s t m).digits = break_number (clampDistance m) ∧
    (sensorTask s t m).ledPin = decide (clampDistance m ≤ 5) := by
  unfold sensorTask
  exact ⟨rfl, rfl, rfl, rfl⟩

theorem sensorStage_fields (s : AlarmState) (t m : Nat) :
    (sensorStage s t m).previousDisplayMillis = s.previousDisplayMillis ∧
    (sensorStage s t m).count = s.count ∧
    (sensorStage s t m).buzzerState = s.buzzerState ∧
    (sensorStage s t m).buzzerPin = s.buzzerPin ∧
    (sensorStage s t m).buzzerInterval = s.buzzerInterval ∧
    (sensorStage s t m).previousBuzzerMillis = s.previousBuzzerMillis ∧
    (sensorStage s t m).muteEnabled = s.muteEnabled := by
  unfold sensorStage sensorTask
  split_ifs <;> simp

theorem display_number_fields (s : AlarmState) :
    (display_number s).count = (if s.count + 1 = 4 then 0 else s.count + 1) ∧
    (display_number s).previousDisplayMillis = s.previousDisplayMillis ∧
    (display_number s).lastShifted =
      ((s.digits.get? s.count).bind fun d => numbers.get? d) := by
  unfold display_number
  exact ⟨rfl, rfl, rfl⟩

theorem displayStage_fields (s : AlarmState) (t : Nat) :
    (displayStage s t).previousSensorMillis = s.previousSensorMillis ∧
    (displayStage s t).distance = s.distance ∧
    (displayStage s t).digits = s.digits ∧
    (displayStage s t).buzzerState = s.buzzerState ∧
    (displayStage s t).buzzerPin = s.buzzerPin ∧
    (displayStage s t).buzzerInterval = s.buzzerInterval ∧
    (displayStage s t).previousBuzzerMillis = s.previousBuzzerMillis ∧
    (displayStage s t).muteEnabled = s.muteEnabled := by
  unfold displayStage display_number
  split_ifs <;> simp

theorem handleCarBackupBuzzer_fields (s : AlarmState) :
    (handleCarBackupBuzzer s).previousSensorMillis = s.previousSensorMillis ∧
    (handleCarBackupBuzzer s).previousDisplayMillis = s.previousDisplayMillis ∧
    (handleCarBackupBuzzer s).previousBuzzerMillis = s.previousBuzzerMillis ∧
    (handleCarBackupBuzzer s).distance = s.distance ∧
    (handleCarBackupBuzzer s).digits = s.digits ∧
    (handleCarBackupBuzzer s).count = s.count := by
  unfold handleCarBackupBuzzer
  dsimp only
  split_ifs <;> simp

theorem buzzerStage_fields (s : AlarmState) (t : Nat) :
    (buzzerStage s t).previousSensorMillis = s.previousSensorMillis ∧
    (buzzerStage s t).distance = s.distance ∧
    (buzzerStage s t).digits = s.digits ∧
    (buzzerStage s t).count = s.count ∧
    (buzzerStage s t).previousDisplayMillis = s.previousDisplayMillis := by
  unfold buzzerStage
  split_ifs with h
  · have hf := handleCarBackupBuzzer_fields { s with previousBuzzerMillis := t }
    exact ⟨hf.1, hf.2.2.2.1, hf.2.2.2.2.1, hf.2.2.2.2.2, hf.2.1⟩
  · exact ⟨rfl, rfl, rfl, rfl, rfl⟩

theorem loopStep_digits_count (s : AlarmState) (t m : Nat) (b : Bool) :
    ((loopStep s t m b).digits = s.digits ∨
      (loopStep s t m b).digits = break_number (clampDistance m)) ∧
    ((loopStep s t m b).count = s.count ∨
      (loopStep s t m b).count = (if s.count + 1 = 4 then 0 else s.count + 1)) := by
  obtain ⟨r1, r2, r3, r4, r5, r6, r7⟩ := readMuteButton_fields s b
  obtain ⟨sf1, sf2, sf3, sf4, sf5, sf6, sf7⟩ :=
    sensorStage_fields (readMuteButton s b) t m
  constructor
  · by_cases hs :
        sensorInterval ≤ usub32 t (readMuteButton s b).previousSensorMillis
    · right
      unfold loopStep
      rw [sensorStage_pos m hs]
      obtain ⟨e1, e2, e3, e4, e5, e6, e7, e8⟩ :=
        displayStage_fields (sensorTask (readMuteButton s b) t m) t
      obtain ⟨z1, z2, z3, z4, z5⟩ := buzzerStage_fields
        (displayStage (sensorTask (readMuteButton s b) t m) t) t
      exact z3.trans (e3.trans (sensorTask_fields _ t m).2.2.1)
    · left
      unfold loopStep
      rw [sensorStage_neg m hs]
      obtain ⟨e1, e2, e3, e4, e5, e6, e7, e8⟩ :=
        displayStage_fields (readMuteButton s b) t
      obtain ⟨z1, z2, z3, z4, z5⟩ := buzzerStage_fields
        (displayStage (readMuteButton s b) t) t
      exact z3.trans (e3.trans r6)
  · by_cases hd : displayInterval ≤
        usub32 t (sensorStage (readMuteButton s b) t m).previousDisplayMillis
    · right
      unfold loopStep
      rw [displayStage_pos hd]
      obtain ⟨z1, z2, z3, z4, z5⟩ := buzzerStage_fields
        (display_number
          { sensorStage (readMuteButton s b) t m with
            previousDisplayMillis := t }) t
      refine (z4.trans (display_number_fields _).1).trans ?_
      dsimp only
      rw [sf2, r7]
    · left
      unfold loopStep
      rw [displayStage_neg hd]
      obtain ⟨z1, z2, z3, z4, z5⟩ := buzzerStage_fields
        (sensorStage (readMuteButton s b) t m) t
      exact z4.trans (sf2.trans r7)

end Phase3

namespace Phase4

theorem autoClear_lock_fields (s : SecState) (t : Nat) :
    (autoClear s t).systemLockedOut = s.systemLockedOut ∧
    (autoClear s t).lockoutStartTime = s.lockoutStartTime ∧
    (autoClear s t).failedAttempts = s.failedAttempts := by
  unfold autoClear clearEntry
  split <;> simp

theorem handleKeypadInput_lockedOut {s : SecState} (key : Option Char) (t : Nat)
    (h : s.systemLockedOut = true) :
    (handleKeypadInput s key t).systemLockedOut = true ∧
    (handleKeypadInput s key t).lockoutStartTime = s.lockoutStartTime ∧
    (handleKeypadInput s key t).failedAttempts = s.failedAttempts := by
  cases key with
  | none =>
      have := autoClear_lock_fields s t
      simp_all [handleKeypadInput]
  | some c =>
      simp [handleKeypadInput, h]

end Phase4

namespace Phase5

theorem stepPhase_spec (pos : Int) (n : Nat) (direction : Int) (delayUs : Nat) :
    (stepPhase pos n direction delayUs).1 =
      pos + (n : Int) * (if 0 < direction then (1 : Int) else -1) ∧
    (stepPhase pos n direction delayUs).2.1 =
      List.replicate n (if 0 < direction then (1 : Int) else -1) ∧
    (stepPhase pos n direction delayUs).2.2 = n * delayUs := by
  induction n generalizing pos with
  | zero => simp [stepPhase]
  | succ k ih =>
      obtain ⟨ih1, ih2, ih3⟩ := ih (pos + (if 0 < direction then (1 : Int) else -1))
      unfold stepPhase
      dsimp only
      refine ⟨?_, ?_, ?_⟩
      · rw [ih1]
        push_cast
        ring
      · rw [ih2, List.replicate_succ]
      · rw [ih3, Nat.succ_mul]
        ring

end Phase5

namespace Phase4

theorem displayRotationStage_fields (s : DashState) (t : Nat) :
    (displayRotationStage s t).temperature = s.temperature ∧
    (displayRotationStage s t).humidity = s.humidity ∧
    (displayRotationStage s t).distance = s.distance ∧
    (displayRotationStage s t).waterLevel = s.waterLevel ∧
    (displayRotationStage s t).sensorDataValid = s.sensorDataValid ∧
    (displayRotationStage s t).lastSensorRead = s.lastSensorRead := by
  unfold displayRotationStage
  split_ifs <;> simp

theorem sensorReadStage_pos {s : DashState} {t : Nat}
    (newTemp newHumidity : Option Rat) (ultra : Rat) (water : Int)
    (h : SENSOR_READ_INTERVAL ≤ usub32 t s.lastSensorRead) :
    sensorReadStage s t newTemp newHumidity ultra water =
      { readAllSensors s newTemp newHumidity ultra water with
        lastSensorRead := t } := by
  unfold sensorReadStage
  rw [if_pos h]

theorem readAllSensors_nan (s : DashState) (newTemp newHumidity : Option Rat)
    (ultra : Rat) (water : Int) (h : newTemp = none ∨ newHumidity = none) :
    readAllSensors s newTemp newHumidity ultra water =
      { s with distance := ultra, waterLevel := water,
               sensorDataValid := true } := by
  rcases h with rfl | rfl
  · cases newHumidity <;> rfl
  · cases newTemp <;> rfl

end Phase4

namespace Phase2

theorem readButton_presses (s : P2State) (pressed : Bool) (t : Nat) :
    (readButton s pressed t).presses =
      s.presses + (if pressed && !s.lastButtonState then 1 else 0) ∧
    (readButton s pressed t).lastButtonState = pressed := by
  unfold readButton
  dsimp only
  split_ifs <;> simp

theorem readButtonRun_append (s : P2State) (l1 l2 : List (Bool × Nat)) :
    readButtonRun s (l1 ++ l2) = readButtonRun (readButtonRun s l1) l2 := by
  unfold readButtonRun
  rw [List.foldl_append]

theorem readButtonRun_replicate_false (s : P2State) (a : Nat) :
    (readButtonRun s (List.replicate a (false, 0))).presses = s.presses ∧
    (1 ≤ a → (readButtonRun s (List.replicate a (false, 0))).lastButtonState
      = false) := by
  induction a generalizing s with
  | zero => exact ⟨rfl, fun h => absurd h (by decide)⟩
  | succ k ih =>
      rw [List.replicate_succ]
      have hr : readButtonRun s ((false, 0) :: List.replicate k (false, 0)) =
          readButtonRun (readButton s false 0) (List.replicate k (false, 0)) := rfl
      rw [hr]
      obtain ⟨ih1, ih2⟩ := ih (readButton s false 0)
      refine ⟨ih1.trans ?_, fun _ => ?_⟩
      · unfold readButton
        simp
      · rcases Nat.eq_zero_or_pos k with rfl | hk
        · show (readButton s false 0).lastButtonState = false
          unfold readButton
          simp
        · exact ih2 hk

theorem readButtonRun_replicate_pressed (s : P2State) (k : Nat)
    (h : s.lastButtonState = true) :
    (readButtonRun s (List.replicate k (true, 0))).presses = s.presses ∧
    (readButtonRun s (List.replicate k (true, 0))).lastButtonState = true := by
  induction k generalizing s with
  | zero => exact ⟨rfl, h⟩
  | succ j ih =>
      rw [List.replicate_succ]
      have hr : readButtonRun s ((true, 0) :: List.replicate j (true, 0)) =
          readButtonRun (readButton s true 0) (List.replicate j (true, 0)) := rfl
      rw [hr]
      have hb : readButton s true 0 = { s with lastButtonState := true } := by
        unfold readButton
        rw [if_neg (by simp [h])]
      obtain ⟨ih1, ih2⟩ := ih { s with lastButtonState := true } rfl
      rw [hb]
      exact ⟨ih1, ih2⟩

end Phase2

/-! ### Claim theorems -/

/-- Claim C1: in the phase-4/phase-5 security sketches, no finite
sequence of keypad events (keys at arbitrary times, interleaved with
arbitrarily many key-less loop iterations) ever invokes `grantAccess` or
sets `systemUnlocked`: starting from the `setup()` state, after any
event list the system is still locked and the ghost `grantAccess`
invocation counter is still zero. -/
theorem c1_keypad_never_unlocks (t0 : Nat) (evs : List Phase4.SecEvent) :
    (Phase4.securityRun (Phase4.initialSecState t0) evs).systemUnlocked = false ∧
    (Phase4.securityRun (Phase4.initialSecState t0) evs).grantCount = 0 := by
  have h0 : Phase4.SecInv (Phase4.initialSecState t0) := by
    unfold Phase4.SecInv Phase4.initialSecState
    simp
  have h := Phase4.secInv_securityRun evs h0
  exact ⟨h.2.1, h.2.2⟩

/-- Claim C2: (a) a third consecutive failed attempt (confirming with
`'*'` while two failures are on record and the entry — which never
contains `'*'` — is necessarily wrong) locks the system out, recording
the lockout start time; (b) while locked out, no keypad key modifies the
entered passcode; (c) once 30000 ms have elapsed since the lockout began
(within the 32-bit range of `millis()`), the next loop iteration clears
the lockout and resets the failed-attempt counter to 0; (d) a successful
entry (`grantAccess`) also resets the counter. -/
theorem c2_lockout_state_machine :
    (∀ (s : Phase4.SecState) (t : Nat),
       s.systemLockedOut = false → s.failedAttempts = 2 →
       '*' ∉ s.enteredPasscode →
       (Phase4.handleSecuritySystem s (some '*') t).systemLockedOut = true ∧
       (Phase4.handleSecuritySystem s (some '*') t).lockoutStartTime = t) ∧
    (∀ (s : Phase4.SecState) (c : Char) (t : Nat),
       s.systemLockedOut = true →
       (Phase4.handleKeypadInput s (some c) t).enteredPasscode = s.enteredPasscode) ∧
    (∀ (s : Phase4.SecState) (key : Option Char) (t : Nat),
       s.systemLockedOut = true → s.lockoutStartTime ≤ t → t < 2 ^ 32 →
       30000 ≤ t - s.lockoutStartTime →
       (Phase4.handleSecuritySystem s key t).systemLockedOut = false ∧
       (Phase4.handleSecuritySystem s key t).failedAttempts = 0) ∧
    (∀ (s : Phase4.SecState) (t : Nat),
       (Phase4.grantAccess s t).failedAttempts = 0) := by
  refine ⟨?_, ?_, ?_, ?_⟩
  · intro s t h1 h2 h3
    have hne : s.enteredPasscode ≠ Phase4.DEFAULT_PASSCODE := by
      intro he
      exact h3 (he ▸ (by decide : '*' ∈ Phase4.DEFAULT_PASSCODE))
    have hc1 : ('*' : Char) ≠ '#' := by decide
    simp [Phase4.handleSecuritySystem, Phase4.handleKeypadInput,
          Phase4.checkPasscode, Phase4.denyAccess, Phase4.lockoutSystem,
          Phase4.clearEntry, Phase4.autoClear, Phase4.handleLockout,
          Phase4.MAX_FAILED_ATTEMPTS, Phase4.LOCKOUT_DURATION, usub32_self,
          h1, h2, hne, hc1]
  · intro s c t h
    simp [Phase4.handleKeypadInput, h]
  · intro s key t h1 h2 h3 h4
    have hk := Phase4.handleKeypadInput_lockedOut key t h1
    have he : usub32 t s.lockoutStartTime = t - s.lockoutStartTime :=
      usub32_eq_sub h2 h3
    simp [Phase4.handleSecuritySystem, hk.1, Phase4.handleLockout, hk.2.1,
          he, Phase4.LOCKOUT_DURATION, h4]
  · intro s t
    simp [Phase4.grantAccess]

/-- Witness for C2 at concrete inputs: a state with two failures and
entry `"9"` locks out on a third wrong confirm at `t = 7`; a locked-out
state ignores the key `'5'`; the same locked-out state (lockout began at
5 ms) clears at `t = 30005`; `grantAccess` zeroes the counter. -/
theorem c2_lockout_state_machine_witness :
    (Phase4.handleSecuritySystem
        ⟨false, ['9'], 0, 0, 2, false, 0, 0⟩ (some '*') 7).systemLockedOut = true ∧
    (Phase4.handleKeypadInput
        ⟨false, ['1'], 0, 0, 0, true, 5, 0⟩ (some '5') 9).enteredPasscode = ['1'] ∧
    (Phase4.handleSecuritySystem
        ⟨false, ['1'], 0, 0, 0, true, 5, 0⟩ none 30005).systemLockedOut = false ∧
    (Phase4.handleSecuritySystem
        ⟨false, ['1'], 0, 0, 0, true, 5, 0⟩ none 30005).failedAttempts = 0 ∧
    (Phase4.grantAccess ⟨false, [], 0, 0, 2, false, 0, 0⟩ 3).failedAttempts = 0 := by
  refine ⟨(c2_lockout_state_machine.1 _ 7 rfl rfl (by decide)).1,
          c2_lockout_state_machine.2.1 _ '5' 9 rfl,
          (c2_lockout_state_machine.2.2.1 _ none 30005 rfl (by decide) (by decide)
            (by decide)).1,
          (c2_lockout_state_machine.2.2.1 _ none 30005 rfl (by decide) (by decide)
            (by decide)).2,
          c2_lockout_state_machine.2.2.2 _ 3⟩

/-- Claim C3: with mute off, `handleCarBackupBuzzer` at distance
`2 <= d <= 10` sets the beep interval to `map(d, 2, 10, 100, 800)`
(100 ms at 2 cm, 800 ms at 10 cm, monotonically increasing in `d`) and
toggles the buzzer output; at `0 < d < 2` it holds the buzzer
continuously on; at `d = 0` or `d > 10` it switches the buzzer off and
resets the interval to 200 ms.  In the main loop (with the button idle
and the other tasks off this tick) the toggle happens exactly when the
beep interval has elapsed. -/
theorem c3_beep_interval_state_machine :
    (∀ s : Phase3.AlarmState, s.muteEnabled = false →
       2 ≤ s.distance → s.distance ≤ 10 →
       (Phase3.handleCarBackupBuzzer s).buzzerInterval =
         (Phase3.arduinoMap (s.distance : Int) 2 10 100 800).toNat ∧
       (Phase3.handleCarBackupBuzzer s).buzzerState = !s.buzzerState ∧
       (Phase3.handleCarBackupBuzzer s).buzzerPin = !s.buzzerState) ∧
    ((Phase3.arduinoMap 2 2 10 100 800 = 100 ∧
      Phase3.arduinoMap 10 2 10 100 800 = 800) ∧
     (∀ d1 < 11, ∀ d2 < 11, 2 ≤ d1 → d1 ≤ d2 →
       (Phase3.arduinoMap (d1 : Int) 2 10 100 800).toNat ≤
         (Phase3.arduinoMap (d2 : Int) 2 10 100 800).toNat)) ∧
    (∀ s : Phase3.AlarmState, s.muteEnabled = false →
       0 < s.distance → s.distance < 2 →
       (Phase3.handleCarBackupBuzzer s).buzzerPin = true ∧
       (Phase3.handleCarBackupBuzzer s).buzzerState = true) ∧
    (∀ s : Phase3.AlarmState, s.muteEnabled = false →
       (s.distance = 0 ∨ 10 < s.distance) →
       (Phase3.handleCarBackupBuzzer s).buzzerPin = false ∧
       (Phase3.handleCarBackupBuzzer s).buzzerState = false ∧
       (Phase3.handleCarBackupBuzzer s).buzzerInterval = 200) ∧
    (∀ (s : Phase3.AlarmState) (t m : Nat), s.muteEnabled = false →
       2 ≤ s.distance → s.distance ≤ 10 →
       ¬ Phase3.sensorInterval ≤ usub32 t s.previousSensorMillis →
       ¬ Phase3.displayInterval ≤ usub32 t s.previousDisplayMillis →
       ((s.buzzerInterval ≤ usub32 t s.previousBuzzerMillis →
          (Phase3.loopStep s t m false).buzzerState = !s.buzzerState ∧
          (Phase3.loopStep s t m false).previousBuzzerMillis = t) ∧
        (¬ s.buzzerInterval ≤ usub32 t s.previousBuzzerMillis →
          (Phase3.loopStep s t m false).buzzerState = s.buzzerState ∧
          (Phase3.loopStep s t m false).buzzerPin = s.buzzerPin ∧
          (Phase3.loopStep s t m false).previousBuzzerMillis =
            s.previousBuzzerMillis))) := by
  have key : ∀ d : Nat, d < 11 → 2 ≤ d →
      ¬ (Phase3.arduinoMap (d : Int) 2 10 100 800).toNat < 100 := by decide
  refine ⟨?_, ⟨⟨by decide, by decide⟩, ?_⟩, ?_, ?_, ?_⟩
  · intro s h1 h2 h3
    unfold Phase3.handleCarBackupBuzzer
    rw [if_neg (by simp [h1]), if_pos ⟨h3, h2⟩]
    dsimp only
    rw [if_neg (key s.distance (by omega) h2)]
    exact ⟨rfl, rfl, rfl⟩
  · intro d1 hd1 d2 hd2 h2 hle
    interval_cases d1 <;> interval_cases d2 <;> decide
  · intro s h1 h2 h3
    unfold Phase3.handleCarBackupBuzzer
    rw [if_neg (by simp [h1]), if_neg (by omega), if_pos ⟨h3, h2⟩]
    exact ⟨rfl, rfl⟩
  · intro s h1 h2
    unfold Phase3.handleCarBackupBuzzer
    rw [if_neg (by simp [h1]), if_neg (by omega), if_neg (by omega)]
    exact ⟨rfl, rfl, rfl⟩
  · intro s t m h1 h2 h3 hs hd
    unfold Phase3.loopStep
    rw [Phase3.readMuteButton_noPress]
    unfold Phase3.sensorStage
    rw [if_neg (by simpa using hs)]
    unfold Phase3.displayStage
    rw [if_neg (by simpa using hd)]
    unfold Phase3.buzzerStage
    constructor
    · intro hb
      rw [if_pos (by simpa using hb)]
      unfold Phase3.handleCarBackupBuzzer
      rw [if_neg (by simp [h1]), if_pos (by simpa using ⟨h3, h2⟩)]
      exact ⟨rfl, rfl⟩
    · intro hb
      rw [if_neg (by simpa using hb)]
      exact ⟨rfl, rfl, rfl⟩

/-- Witness for C3 at concrete inputs: distance 6 cm with mute off gives
interval 450 ms and a toggle; distances 3 and 7 give monotonically
ordered intervals; distance 1 cm holds the buzzer on; distance 15 cm
switches it off and resets the interval; in the loop at `t = 100` the
buzzer task fires when 100 ms have elapsed and is skipped when only
50 ms have. -/
theorem c3_beep_interval_state_machine_witness :
    (Phase3.handleCarBackupBuzzer
        ⟨0, [0, 0, 0, 6], 6, false, false, false, false, false, 0, 0, 0, 200, none⟩).buzzerInterval = 450 ∧
    (Phase3.handleCarBackupBuzzer
        ⟨0, [0, 0, 0, 6], 6, false, false, false, false, false, 0, 0, 0, 200, none⟩).buzzerState = true ∧
    (Phase3.arduinoMap 3 2 10 100 800).toNat ≤
      (Phase3.arduinoMap 7 2 10 100 800).toNat ∧
    (Phase3.handleCarBackupBuzzer
        ⟨0, [0, 0, 0, 1], 1, false, false, false, false, true, 0, 0, 0, 450, none⟩).buzzerPin = true ∧
    (Phase3.handleCarBackupBuzzer
        ⟨0, [0, 0, 1, 5], 15, true, false, false, true, false, 0, 0, 0, 450, none⟩).buzzerInterval = 200 ∧
    (Phase3.loopStep
        ⟨0, [0, 0, 0, 6], 6, false, false, true, false, false, 99, 50, 0, 100, none⟩
        100 6 false).buzzerState = true ∧
    (Phase3.loopStep
        ⟨0, [0, 0, 0, 6], 6, false, false, true, false, false, 99, 50, 50, 100, none⟩
        100 6 false).buzzerState = false := by
  refine ⟨(c3_beep_interval_state_machine.1 _ rfl (by decide) (by decide)).1.trans
            (by decide),
          ?_,
          c3_beep_interval_state_machine.2.1.2 3 (by decide) 7 (by decide)
            (by decide) (by decide),
          (c3_beep_interval_state_machine.2.2.1 _ rfl (by decide) (by decide)).1,
          (c3_beep_interval_state_machine.2.2.2.1 _ rfl (Or.inr (by decide))).2.2,
          ?_, ?_⟩
  · exact (c3_beep_interval_state_machine.1 _ rfl (by decide) (by decide)).2.1
  · exact ((c3_beep_interval_state_machine.2.2.2.2 _ 100 6 rfl (by decide)
      (by decide) (by decide) (by decide)).1 (by decide)).1
  · exact ((c3_beep_interval_state_machine.2.2.2.2 _ 100 6 rfl (by decide)
      (by decide) (by decide) (by decide)).2 (by decide)).1

/-- Claim C7: in each iteration of the proximity-alarm `loop()`, every
periodic task (distance sampling at 100 ms, display multiplexing at
2 ms, buzzer handling at the variable `buzzerInterval`) runs exactly
when the time elapsed since its recorded last-run timestamp reaches its
interval, and running it advances that timestamp to the current tick;
when a task does not run, its timestamp and its state are left
untouched. -/
theorem c7_cooperative_tick_rule (s : Phase3.AlarmState) (t m : Nat) (b : Bool) :
    ((Phase3.sensorInterval ≤ usub32 t s.previousSensorMillis →
       (Phase3.loopStep s t m b).previousSensorMillis = t ∧
       (Phase3.loopStep s t m b).distance = Phase3.clampDistance m ∧
       (Phase3.loopStep s t m b).digits =
         Phase3.break_number (Phase3.clampDistance m)) ∧
     (¬ Phase3.sensorInterval ≤ usub32 t s.previousSensorMillis →
       (Phase3.loopStep s t m b).previousSensorMillis = s.previousSensorMillis ∧
       (Phase3.loopStep s t m b).distance = s.distance ∧
       (Phase3.loopStep s t m b).digits = s.digits)) ∧
    ((Phase3.displayInterval ≤ usub32 t s.previousDisplayMillis →
       (Phase3.loopStep s t m b).previousDisplayMillis = t ∧
       (Phase3.loopStep s t m b).count =
         (if s.count + 1 = 4 then 0 else s.count + 1)) ∧
     (¬ Phase3.displayInterval ≤ usub32 t s.previousDisplayMillis →
       (Phase3.loopStep s t m b).previousDisplayMillis = s.previousDisplayMillis ∧
       (Phase3.loopStep s t m b).count = s.count)) ∧
    ((s.buzzerInterval ≤ usub32 t s.previousBuzzerMillis →
       (Phase3.loopStep s t m b).previousBuzzerMillis = t) ∧
     (¬ s.buzzerInterval ≤ usub32 t s.previousBuzzerMillis →
       (Phase3.loopStep s t m b).previousBuzzerMillis = s.previousBuzzerMillis ∧
       (Phase3.loopStep s t m b).buzzerPin = (Phase3.readMuteButton s b).buzzerPin ∧
       (Phase3.loopStep s t m b).buzzerInterval = s.buzzerInterval)) := by
  obtain ⟨r1, r2, r3, r4, r5, r6, r7⟩ := Phase3.readMuteButton_fields s b
  obtain ⟨sf1, sf2, sf3, sf4, sf5, sf6, sf7⟩ :=
    Phase3.sensorStage_fields (Phase3.readMuteButton s b) t m
  obtain ⟨df1, df2, df3, df4, df5, df6, df7, df8⟩ :=
    Phase3.displayStage_fields
      (Phase3.sensorStage (Phase3.readMuteButton s b) t m) t
  have hCi : (Phase3.displayStage
      (Phase3.sensorStage (Phase3.readMuteButton s b) t m) t).buzzerInterval =
      s.buzzerInterval := df6.trans (sf5.trans r4)
  have hCp : (Phase3.displayStage
      (Phase3.sensorStage (Phase3.readMuteButton s b) t m) t).previousBuzzerMillis =
      s.previousBuzzerMillis := df7.trans (sf6.trans r3)
  refine ⟨⟨?_, ?_⟩, ⟨?_, ?_⟩, ⟨?_, ?_⟩⟩
  · intro h
    have hB := Phase3.sensorStage_pos (s := Phase3.readMuteButton s b) (t := t) m
      (by rw [r1]; exact h)
    obtain ⟨q1, q2, q3, q4⟩ :=
      Phase3.sensorTask_fields (Phase3.readMuteButton s b) t m
    obtain ⟨e1, e2, e3, e4, e5, e6, e7, e8⟩ :=
      Phase3.displayStage_fields
        (Phase3.sensorTask (Phase3.readMuteButton s b) t m) t
    obtain ⟨z1, z2, z3, z4, z5⟩ := Phase3.buzzerStage_fields
      (Phase3.displayStage (Phase3.sensorTask (Phase3.readMuteButton s b) t m) t) t
    unfold Phase3.loopStep
    rw [hB]
    exact ⟨z1.trans (e1.trans q1), z2.trans (e2.trans q2), z3.trans (e3.trans q3)⟩
  · intro h
    have hB := Phase3.sensorStage_neg (s := Phase3.readMuteButton s b) (t := t) m
      (by rw [r1]; exact h)
    obtain ⟨e1, e2, e3, e4, e5, e6, e7, e8⟩ :=
      Phase3.displayStage_fields (Phase3.readMuteButton s b) t
    obtain ⟨z1, z2, z3, z4, z5⟩ := Phase3.buzzerStage_fields
      (Phase3.displayStage (Phase3.readMuteButton s b) t) t
    unfold Phase3.loopStep
    rw [hB]
    exact ⟨z1.trans (e1.trans r1), z2.trans (e2.trans r5), z3.trans (e3.trans r6)⟩
  · intro h
    have hC := Phase3.displayStage_pos
      (s := Phase3.sensorStage (Phase3.readMuteButton s b) t m) (t := t)
      (by rw [sf1, r2]; exact h)
    obtain ⟨dn1, dn2, dn3⟩ := Phase3.display_number_fields
      { Phase3.sensorStage (Phase3.readMuteButton s b) t m with
        previousDisplayMillis := t }
    obtain ⟨z1, z2, z3, z4, z5⟩ := Phase3.buzzerStage_fields
      (Phase3.display_number
        { Phase3.sensorStage (Phase3.readMuteButton s b) t m with
          previousDisplayMillis := t }) t
    unfold Phase3.loopStep
    rw [hC]
    refine ⟨z5.trans dn2, (z4.trans dn1).trans ?_⟩
    dsimp only
    rw [sf2, r7]
  · intro h
    have hC := Phase3.displayStage_neg
      (s := Phase3.sensorStage (Phase3.readMuteButton s b) t m) (t := t)
      (by rw [sf1, r2]; exact h)
    obtain ⟨z1, z2, z3, z4, z5⟩ := Phase3.buzzerStage_fields
      (Phase3.sensorStage (Phase3.readMuteButton s b) t m) t
    unfold Phase3.loopStep
    rw [hC]
    exact ⟨z5.trans (sf1.trans r2), z4.trans (sf2.trans r7)⟩
  · intro h
    have hD := Phase3.buzzerStage_pos
      (s := Phase3.displayStage
        (Phase3.sensorStage (Phase3.readMuteButton s b) t m) t) (t := t)
      (by rw [hCi, hCp]; exact h)
    unfold Phase3.loopStep
    rw [hD]
    exact (Phase3.handleCarBackupBuzzer_fields _).2.2.1
  · intro h
    have hD := Phase3.buzzerStage_neg
      (s := Phase3.displayStage
        (Phase3.sensorStage (Phase3.readMuteButton s b) t m) t) (t := t)
      (by rw [hCi, hCp]; exact h)
    unfold Phase3.loopStep
    rw [hD]
    exact ⟨hCp, df5.trans sf4, hCi⟩

/-- Witness for C7 at concrete inputs: at `t = 1000` from zeroed
timestamps every task fires and stamps 1000; at `t = 1000` from
timestamps 950/999/900 (intervals 100/2/200) every task is skipped and
all three timestamps and the buzzer state are unchanged. -/
theorem c7_cooperative_tick_rule_witness :
    (Phase3.loopStep
        ⟨0, [0, 0, 0, 0], 0, false, false, true, false, false, 0, 0, 0, 200, none⟩
        1000 23 false).previousSensorMillis = 1000 ∧
    (Phase3.loopStep
        ⟨0, [0, 0, 0, 0], 0, false, false, true, false, false, 0, 0, 0, 200, none⟩
        1000 23 false).distance = 23 ∧
    (Phase3.loopStep
        ⟨0, [0, 0, 0, 0], 0, false, false, true, false, false, 0, 0, 0, 200, none⟩
        1000 23 false).previousDisplayMillis = 1000 ∧
    (Phase3.loopStep
        ⟨0, [0, 0, 0, 0], 0, false, false, true, false, false, 0, 0, 0, 200, none⟩
        1000 23 false).count = 1 ∧
    (Phase3.loopStep
        ⟨0, [0, 0, 0, 0], 0, false, false, true, false, false, 0, 0, 0, 200, none⟩
        1000 23 false).previousBuzzerMillis = 1000 ∧
    (Phase3.loopStep
        ⟨0, [0, 0, 0, 0], 0, false, false, true, false, false, 999, 950, 900, 200, none⟩
        1000 23 false).previousSensorMillis = 950 ∧
    (Phase3.loopStep
        ⟨0, [0, 0, 0, 0], 0, false, false, true, false, false, 999, 950, 900, 200, none⟩
        1000 23 false).count = 0 ∧
    (Phase3.loopStep
        ⟨0, [0, 0, 0, 0], 0, false, false, true, false, false, 999, 950, 900, 200, none⟩
        1000 23 false).previousBuzzerMillis = 900 := by
  refine ⟨((c7_cooperative_tick_rule _ 1000 23 false).1.1 (by decide)).1,
          ((c7_cooperative_tick_rule _ 1000 23 false).1.1 (by decide)).2.1.trans
            (by decide),
          ((c7_cooperative_tick_rule _ 1000 23 false).2.1.1 (by decide)).1,
          ((c7_cooperative_tick_rule _ 1000 23 false).2.1.1 (by decide)).2.trans
            (by decide),
          (c7_cooperative_tick_rule _ 1000 23 false).2.2.1 (by decide),
          ((c7_cooperative_tick_rule _ 1000 23 false).1.2 (by decide)).1,
          ((c7_cooperative_tick_rule _ 1000 23 false).2.1.2 (by decide)).2,
          ((c7_cooperative_tick_rule _ 1000 23 false).2.2.2 (by decide)).1⟩

/-- Claim C10: the measured distance is clamped to at most 9999 before
`break_number` splits it, so each of the four digits lies in `0..9`;
hence indexing the ten-entry `numbers` pattern array (as
`display_number` does with `numbers[digits[count]]`) always succeeds;
and the digit-safety invariant is preserved by every loop iteration. -/
theorem c10_display_index_in_bounds :
    (∀ d : Nat, Phase3.clampDistance d ≤ 9999 ∧
       (Phase3.break_number (Phase3.clampDistance d)).length = 4 ∧
       ∀ x ∈ Phase3.break_number (Phase3.clampDistance d), x < 10) ∧
    (∀ s : Phase3.AlarmState, Phase3.DigitsInv s →
       ∃ v, ((s.digits.get? s.count).bind fun d => Phase3.numbers.get? d) = some v) ∧
    (∀ (s : Phase3.AlarmState) (t m : Nat) (b : Bool),
       Phase3.DigitsInv s → Phase3.DigitsInv (Phase3.loopStep s t m b)) := by
  have hclamp : ∀ d : Nat, Phase3.clampDistance d ≤ 9999 := by
    intro d
    unfold Phase3.clampDistance
    split_ifs <;> omega
  have hdig : ∀ d : Nat, ∀ x ∈ Phase3.break_number (Phase3.clampDistance d), x < 10 := by
    intro d x hx
    have hc := hclamp d
    simp only [Phase3.break_number, List.mem_cons, List.not_mem_nil, or_false] at hx
    rcases hx with h | h | h | h <;> subst h <;> omega
  refine ⟨fun d => ⟨hclamp d, rfl, hdig d⟩, ?_, ?_⟩
  · rintro s ⟨hl, hx, hc⟩
    have hlt : s.count < s.digits.length := hl ▸ hc
    have h1 : s.digits.get? s.count = some (s.digits.get ⟨s.count, hlt⟩) :=
      List.get?_eq_get hlt
    have h2 : s.digits.get ⟨s.count, hlt⟩ < Phase3.numbers.length := by
      have := hx _ (s.digits.get_mem s.count hlt)
      simpa [Phase3.numbers] using this
    exact ⟨Phase3.numbers.get ⟨_, h2⟩, by rw [h1]; exact List.get?_eq_get h2⟩
  · rintro s t m b ⟨hl, hx, hc⟩
    obtain ⟨hdigits, hcount⟩ := Phase3.loopStep_digits_count s t m b
    refine ⟨?_, ?_, ?_⟩
    · rcases hdigits with h | h <;> rw [h]
      · exact hl
      · rfl
    · rcases hdigits with h | h <;> rw [h]
      · exact hx
      · exact hdig m
    · rcases hcount with h | h <;> rw [h]
      · exact hc
      · split_ifs <;> omega

/-- Witness for C10 at concrete inputs: the invariant state with digits
`[1, 2, 3, 4]` and `count = 2` yields an in-bounds segment-pattern
lookup, and one loop iteration from it (reading 12345 cm, which clamps
to 9999) preserves the invariant. -/
theorem c10_display_index_in_bounds_witness :
    (∃ v, ((([1, 2, 3, 4] : List Nat).get? 2).bind
        fun d => Phase3.numbers.get? d) = some v) ∧
    Phase3.DigitsInv (Phase3.loopStep
      ⟨2, [1, 2, 3, 4], 1234, false, false, true, false, false, 0, 0, 0, 200, none⟩
      1000 12345 false) := by
  constructor
  · exact c10_display_index_in_bounds.2.1
      ⟨2, [1, 2, 3, 4], 1234, false, false, true, false, false, 0, 0, 0, 200, none⟩
      ⟨rfl, by decide, by decide⟩
  · exact c10_display_index_in_bounds.2.2 _ 1000 12345 false
      ⟨rfl, by decide, by decide⟩

/-- Claim C5: `stepMotor(steps, direction)` called while no movement is
in progress partitions the motion into an acceleration phase of
`min(steps / 4, 50)` steps, an equal deceleration phase, and a
constant-speed remainder; it issues exactly `steps` single-step commands
all in the given direction, shifts `currentMotorPosition` by exactly
`direction * steps`, and leaves `motorMoving` false on return. -/
theorem c5_stepper_accel_profile (s : Phase5.MotorState) (steps : Nat)
    (direction : Int) (hm : s.motorMoving = false)
    (hd : direction = 1 ∨ direction = -1) :
    (Phase5.stepMotor s steps direction).2.1.length = steps ∧
    (∀ c ∈ (Phase5.stepMotor s steps direction).2.1, c = direction) ∧
    (Phase5.stepMotor s steps direction).1.currentMotorPosition =
      s.currentMotorPosition + direction * steps ∧
    (Phase5.stepMotor s steps direction).1.motorMoving = false ∧
    min (steps / 4) 50 + (steps - min (steps / 4) 50 - min (steps / 4) 50) +
      min (steps / 4) 50 = steps := by
  have hcmd : (if (0 : Int) < direction then (1 : Int) else -1) = direction := by
    rcases hd with rfl | rfl <;> norm_num
  unfold Phase5.stepMotor
  rw [if_neg (by simp [hm])]
  dsimp only
  set a := min (steps / 4) 50 with ha
  set cn := steps - a - a with hc
  have hsum : a + cn + a = steps := by omega
  have S1 := Phase5.stepPhase_spec s.currentMotorPosition a direction 2000
  have S2 := Phase5.stepPhase_spec
    (Phase5.stepPhase s.currentMotorPosition a direction 2000).1 cn direction 1000
  have S3 := Phase5.stepPhase_spec
    (Phase5.stepPhase
      (Phase5.stepPhase s.currentMotorPosition a direction 2000).1
      cn direction 1000).1 a direction 2000
  refine ⟨?_, ?_, ?_, rfl, by omega⟩
  · rw [S1.2.1, S2.2.1, S3.2.1]
    simp only [List.length_append, List.length_replicate]
    omega
  · intro xc hxc
    rw [S1.2.1, S2.2.1, S3.2.1, hcmd] at hxc
    simp only [List.mem_append, List.mem_replicate] at hxc
    rcases hxc with (⟨-, h⟩ | ⟨-, h⟩) | ⟨-, h⟩ <;> exact h
  · rw [S3.1, S2.1, S1.1, hcmd, ← hsum]
    push_cast
    ring

/-- Witness for C5 at concrete inputs: `stepMotor(8, 1)` from position 0
issues 8 forward step commands (accel/decel phases of `min(8/4, 50) = 2`
steps each), ends at position 8 and clears `motorMoving`. -/
theorem c5_stepper_accel_profile_witness :
    (Phase5.stepMotor ⟨0, false⟩ 8 1).2.1.length = 8 ∧
    (Phase5.stepMotor ⟨0, false⟩ 8 1).2.1 = List.replicate 8 1 ∧
    (Phase5.stepMotor ⟨0, false⟩ 8 1).1.currentMotorPosition = 8 ∧
    (Phase5.stepMotor ⟨0, false⟩ 8 1).1.motorMoving = false ∧
    min (8 / 4) 50 = 2 := by
  have h := c5_stepper_accel_profile ⟨0, false⟩ 8 1 rfl (Or.inl rfl)
  exact ⟨h.1, by decide, h.2.2.1.trans (by decide), h.2.2.2.1, by decide⟩

/-- Claim C6: when a DHT read returns NaN (either value), `readAllSensors`
leaves the stored temperature and humidity unchanged, still performs the
distance and water-level reads of the same tick, and modifies nothing
else; and the read is simply attempted again at the next scheduled
sensor tick — a tick whose readings are valid then overwrites both
values. -/
theorem c6_dht_nan_skip_and_retry :
    (∀ (s : Phase4.DashState) (newTemp newHumidity : Option Rat)
       (ultra : Rat) (water : Int),
       newTemp = none ∨ newHumidity = none →
       Phase4.readAllSensors s newTemp newHumidity ultra water =
         { s with distance := ultra, waterLevel := water,
                  sensorDataValid := true }) ∧
    (∀ (s : Phase4.DashState) (t t2 : Nat) (nH : Option Rat) (u u2 : Rat)
       (w w2 : Int) (tv hv : Rat),
       Phase4.SENSOR_READ_INTERVAL ≤ usub32 t s.lastSensorRead →
       Phase4.SENSOR_READ_INTERVAL ≤ usub32 t2 t →
       (Phase4.handleSensorDashboard s t none nH u w).temperature =
         s.temperature ∧
       (Phase4.handleSensorDashboard s t none nH u w).humidity = s.humidity ∧
       (Phase4.handleSensorDashboard s t none nH u w).distance = u ∧
       (Phase4.handleSensorDashboard s t none nH u w).waterLevel = w ∧
       (Phase4.handleSensorDashboard s t none nH u w).lastSensorRead = t ∧
       (Phase4.handleSensorDashboard
         (Phase4.handleSensorDashboard s t none nH u w) t2
         (some tv) (some hv) u2 w2).temperature = tv ∧
       (Phase4.handleSensorDashboard
         (Phase4.handleSensorDashboard s t none nH u w) t2
         (some tv) (some hv) u2 w2).humidity = hv ∧
       (Phase4.handleSensorDashboard
         (Phase4.handleSensorDashboard s t none nH u w) t2
         (some tv) (some hv) u2 w2).distance = u2) := by
  refine ⟨Phase4.readAllSensors_nan, ?_⟩
  intro s t t2 nH u u2 w w2 tv hv h1 h2
  have hnan := Phase4.readAllSensors_nan s none nH u w (Or.inl rfl)
  have hr1 : Phase4.handleSensorDashboard s t none nH u w =
      Phase4.displayRotationStage
        { Phase4.readAllSensors s none nH u w with lastSensorRead := t } t := by
    unfold Phase4.handleSensorDashboard
    rw [Phase4.sensorReadStage_pos none nH u w h1]
  obtain ⟨f1, f2, f3, f4, f5, f6⟩ := Phase4.displayRotationStage_fields
    { Phase4.readAllSensors s none nH u w with lastSensorRead := t } t
  have hls : (Phase4.handleSensorDashboard s t none nH u w).lastSensorRead = t := by
    rw [hr1, f6]
  have hstep : ∀ x : Phase4.DashState, x.lastSensorRead = t →
      Phase4.handleSensorDashboard x t2 (some tv) (some hv) u2 w2 =
      Phase4.displayRotationStage
        { Phase4.readAllSensors x (some tv) (some hv) u2 w2 with
          lastSensorRead := t2 } t2 := by
    intro x hx
    unfold Phase4.handleSensorDashboard
    rw [Phase4.sensorReadStage_pos (some tv) (some hv) u2 w2
      (by rw [hx]; exact h2)]
  have hr2 := hstep _ hls
  obtain ⟨g1, g2, g3, g4, g5, g6⟩ := Phase4.displayRotationStage_fields
    { Phase4.readAllSensors (Phase4.handleSensorDashboard s t none nH u w)
        (some tv) (some hv) u2 w2 with lastSensorRead := t2 } t2
  refine ⟨?_, ?_, ?_, ?_, hls, ?_, ?_, ?_⟩
  · rw [hr1, f1]
    dsimp only
    rw [hnan]
  · rw [hr1, f2]
    dsimp only
    rw [hnan]
  · rw [hr1, f3]
    dsimp only
    rw [hnan]
  · rw [hr1, f4]
    dsimp only
    rw [hnan]
  · rw [hr2, g1]
    rfl
  · rw [hr2, g2]
    rfl
  · rw [hr2, g3]
    rfl

/-- Witness for C6 at concrete inputs: from temperature 20 / humidity 50,
a tick at `t = 1000` whose DHT read is NaN keeps 20/50 but stores the
new distance 7 and water level 3; the retry tick at `t = 2000` with
valid readings stores temperature 25 and humidity 60. -/
theorem c6_dht_nan_skip_and_retry_witness :
    Phase4.readAllSensors ⟨20, 50, 10, 100, false, 0, 0⟩ none (some 55) 7 3 =
      ⟨20, 50, 7, 3, true, 0, 0⟩ ∧
    (Phase4.handleSensorDashboard ⟨20, 50, 10, 100, false, 0, 0⟩ 1000
        none (some 55) 7 3).temperature = 20 ∧
    (Phase4.handleSensorDashboard ⟨20, 50, 10, 100, false, 0, 0⟩ 1000
        none (some 55) 7 3).distance = 7 ∧
    (Phase4.handleSensorDashboard
        (Phase4.handleSensorDashboard ⟨20, 50, 10, 100, false, 0, 0⟩ 1000
          none (some 55) 7 3) 2000 (some 25) (some 60) 8 4).temperature = 25 ∧
    (Phase4.handleSensorDashboard
        (Phase4.handleSensorDashboard ⟨20, 50, 10, 100, false, 0, 0⟩ 1000
          none (some 55) 7 3) 2000 (some 25) (some 60) 8 4).humidity = 60 := by
  have h := c6_dht_nan_skip_and_retry.2 ⟨20, 50, 10, 100, false, 0, 0⟩ 1000 2000
    (some 55) 7 8 3 4 25 60 (by decide) (by decide)
  exact ⟨c6_dht_nan_skip_and_retry.1 _ none (some 55) 7 3 (Or.inl rfl),
         h.1, h.2.2.1, h.2.2.2.2.2.1, h.2.2.2.2.2.2.1⟩

/-- Counterexample to claim C9 as stated: a single physical press whose
contact bounces across loop samples is NOT registered at most once.
From the boot state, the sampled trace released, pressed, released
(bounce), pressed registers the press twice in `readButton`. -/
theorem c9_debounce_counterexample :
    ¬ (Phase2.readButtonRun Phase2.p2Init
        [(false, 0), (true, 10), (false, 12), (true, 14)]).presses ≤ 1 := by
  decide

/-- Claim C9 as amended: the phase-2 `readButton` and the proximity-alarm
`readMuteButton` perform plain edge detection with no debounce filter:
a press is registered exactly at each sampled not-pressed-to-pressed
transition (so a bounce that spans loop samples registers again), and a
press whose samples form one contiguous pressed block preceded by at
least one released sample registers exactly once; the mute flag toggles
precisely on such transitions. -/
theorem c9_edge_detection_only :
    (∀ (s : Phase2.P2State) (pressed : Bool) (t : Nat),
       (Phase2.readButton s pressed t).presses =
         s.presses + (if pressed && !s.lastButtonState then 1 else 0)) ∧
    (∀ a b : Nat, 1 ≤ a → 1 ≤ b →
       (Phase2.readButtonRun Phase2.p2Init
         (List.replicate a (false, 0) ++ List.replicate b (true, 0))).presses
         = 1) ∧
    (∀ (s : Phase3.AlarmState) (pressed : Bool),
       (Phase3.readMuteButton s pressed).muteEnabled ≠ s.muteEnabled ↔
         pressed = true ∧ s.lastButtonState = false) := by
  refine ⟨?_, ?_, ?_⟩
  · intro s pressed t
    exact (Phase2.readButton_presses s pressed t).1
  · intro a b ha hb
    rw [Phase2.readButtonRun_append]
    obtain ⟨h1p, h1l⟩ := Phase2.readButtonRun_replicate_false Phase2.p2Init a
    obtain ⟨j, rfl⟩ := Nat.exists_eq_add_of_le hb
    rw [Nat.add_comm 1 j, List.replicate_succ]
    have hr : Phase2.readButtonRun
        (Phase2.readButtonRun Phase2.p2Init (List.replicate a (false, 0)))
        ((true, 0) :: List.replicate j (true, 0)) =
        Phase2.readButtonRun
          (Phase2.readButton
            (Phase2.readButtonRun Phase2.p2Init (List.replicate a (false, 0)))
            true 0)
          (List.replicate j (true, 0)) := rfl
    rw [hr]
    obtain ⟨hp, hl⟩ := Phase2.readButton_presses
      (Phase2.readButtonRun Phase2.p2Init (List.replicate a (false, 0))) true 0
    rw [h1l ha] at hp
    simp only [Bool.not_false, Bool.and_true, if_pos] at hp
    obtain ⟨hq, -⟩ := Phase2.readButtonRun_replicate_pressed
      (Phase2.readButton
        (Phase2.readButtonRun Phase2.p2Init (List.replicate a (false, 0)))
        true 0) j hl
    rw [hq, hp, h1p]
    rfl
  · intro s pressed
    unfold Phase3.readMuteButton Phase3.toggleMute
    dsimp only
    split_ifs with h1 h2 <;> simp_all

/-- Witness for the amended C9 at concrete inputs: a press sampled at
boot is not registered (`lastButtonState` initialises to `HIGH`); one
released sample followed by two pressed samples registers exactly once;
pressing the mute button from the released state toggles mute. -/
theorem c9_edge_detection_only_witness :
    (Phase2.readButton Phase2.p2Init true 0).presses = 0 ∧
    (Phase2.readButtonRun Phase2.p2Init
      (List.replicate 1 (false, 0) ++ List.replicate 2 (true, 0))).presses = 1 ∧
    (Phase3.readMuteButton
      ⟨0, [0, 0, 0, 0], 0, false, false, false, false, false, 0, 0, 0, 200, none⟩
      true).muteEnabled ≠ false := by
  refine ⟨?_, c9_edge_detection_only.2.1 1 2 (by decide) (by decide), ?_⟩
  · exact (c9_edge_detection_only.1 Phase2.p2Init true 0).trans (by decide)
  · exact (c9_edge_detection_only.2.2
      ⟨0, [0, 0, 0, 0], 0, false, false, false, false, false, 0, 0, 0, 200, none⟩
      true).mpr ⟨rfl, rfl⟩

/-- Counterexample to claim C4 as stated: not every activity is
non-blocking.  `denyAccess` with the LCD initialised executes 3200 ms of
`delay(...)` (three 200+200 ms blinks plus the 2000 ms message), and the
automatic 1024-step motor move `stepMotor(STEPS_PER_90_DEGREES, 1)`
blocks for 1124000 us of `delayMicroseconds(...)` — neither is 0. -/
theorem c4_nonblocking_counterexample :
    Phase4.denyAccessDelayMs true = 3200 ∧
    Phase4.grantAccessDelayMs true = 3000 ∧
    (Phase5.stepMotor ⟨0, false⟩ Phase5.STEPS_PER_90_DEGREES 1).2.2 = 1124000 ∧
    ¬ (Phase4.denyAccessDelayMs true = 0 ∧
       (Phase5.stepMotor ⟨0, false⟩ Phase5.STEPS_PER_90_DEGREES 1).2.2 = 0) := by
  set_option maxRecDepth 4000 in
  decide

/-- Claim C4 as amended: the periodic activities are indeed driven by
manual timestamp comparison against the millisecond clock on one thread
(shown here for the phase-4 sensor-dashboard tasks; C7 covers the
proximity-alarm loop), but not every activity is non-blocking: the
access-feedback paths (`grantAccess`/`denyAccess`) execute 3000 ms and
3200 ms of `delay(...)` when the LCD is initialised, and every stepper
movement of at least one step blocks the loop for its whole duration. -/
theorem c4_cooperative_but_blocking_feedback :
    (∀ (s : Phase4.DashState) (t : Nat) (nT nH : Option Rat) (u : Rat) (w : Int),
       (Phase4.SENSOR_READ_INTERVAL ≤ usub32 t s.lastSensorRead →
         (Phase4.handleSensorDashboard s t nT nH u w).lastSensorRead = t) ∧
       (¬ Phase4.SENSOR_READ_INTERVAL ≤ usub32 t s.lastSensorRead →
         (Phase4.handleSensorDashboard s t nT nH u w).lastSensorRead =
           s.lastSensorRead ∧
         (Phase4.handleSensorDashboard s t nT nH u w).temperature =
           s.temperature ∧
         (Phase4.handleSensorDashboard s t nT nH u w).distance = s.distance)) ∧
    (Phase4.grantAccessDelayMs true = 3000 ∧
     Phase4.denyAccessDelayMs true = 3200) ∧
    (∀ (s : Phase5.MotorState) (steps : Nat) (direction : Int),
       s.motorMoving = false → 1 ≤ steps →
       1 ≤ (Phase5.stepMotor s steps direction).2.2) := by
  refine ⟨?_, by decide, ?_⟩
  · intro s t nT nH u w
    obtain ⟨f1, f2, f3, f4, f5, f6⟩ := Phase4.displayRotationStage_fields
      (Phase4.sensorReadStage s t nT nH u w) t
    constructor
    · intro h
      unfold Phase4.handleSensorDashboard
      rw [f6, Phase4.sensorReadStage_pos nT nH u w h]
    · intro h
      have hneg : Phase4.sensorReadStage s t nT nH u w = s := by
        unfold Phase4.sensorReadStage
        rw [if_neg h]
      unfold Phase4.handleSensorDashboard
      rw [f6, f1, f3, hneg]
      exact ⟨rfl, rfl, rfl⟩
  · intro s steps direction hm hs
    unfold Phase5.stepMotor
    rw [if_neg (by simp [hm])]
    dsimp only
    set a := min (steps / 4) 50 with ha
    set cn := steps - a - a with hc
    have S1 := Phase5.stepPhase_spec s.currentMotorPosition a direction 2000
    have S2 := Phase5.stepPhase_spec
      (Phase5.stepPhase s.currentMotorPosition a direction 2000).1 cn direction 1000
    have S3 := Phase5.stepPhase_spec
      (Phase5.stepPhase
        (Phase5.stepPhase s.currentMotorPosition a direction 2000).1
        cn direction 1000).1 a direction 2000
    rw [S1.2.2, S2.2.2, S3.2.2]
    omega

/-- Witness for the amended C4 at concrete inputs: a dashboard tick at
`t = 1000` from `lastSensorRead = 0` stamps the read timestamp, a tick
at `t = 500` does not; the delay constants evaluate as stated; and a
4-step move has positive blocking delay. -/
theorem c4_cooperative_but_blocking_feedback_witness :
    (Phase4.handleSensorDashboard ⟨20, 50, 10, 100, true, 0, 0⟩ 1000
        none none 1 1).lastSensorRead = 1000 ∧
    (Phase4.handleSensorDashboard ⟨20, 50, 10, 100, true, 0, 0⟩ 500
        none none 1 1).lastSensorRead = 0 ∧
    1 ≤ (Phase5.stepMotor ⟨0, false⟩ 4 1).2.2 := by
  refine ⟨(c4_cooperative_but_blocking_feedback.1 _ 1000 none none 1 1).1
            (by decide),
          ?_,
          c4_cooperative_but_blocking_feedback.2.2 ⟨0, false⟩ 4 1 rfl
            (by decide)⟩
  exact ((c4_cooperative_but_blocking_feedback.1 _ 500 none none 1 1).2
    (by decide)).1

/-- Counterexample to claim C8 as stated: the 32-bit millisecond counter
wraps, so two successive reads are not always nondecreasing — at true
elapsed times 2^32 - 1 ms and 2^32 ms the second read is 0, below the
first. -/
theorem c8_millis_monotonic_counterexample :
    ¬ ∀ t1 t2 : Nat, t1 ≤ t2 → Clock.millisRead t1 ≤ Clock.millisRead t2 := by
  intro h
  have hx := h (2 ^ 32 - 1) (2 ^ 32) (by omega)
  unfold Clock.millisRead at hx
  omega

/-- Claim C8 as amended: reads of the 32-bit millisecond counter are
nondecreasing as long as the true elapsed time stays below 2^32 ms
(about 49.7 days); moreover the unsigned subtraction the sketches use to
compare timestamps recovers the true elapsed time between two reads
whenever it is below 2^32 ms, even across a counter wrap. -/
theorem c8_millis_32bit_wrap :
    (∀ t1 t2 : Nat, t1 ≤ t2 → t2 < 2 ^ 32 →
       Clock.millisRead t1 ≤ Clock.millisRead t2) ∧
    (∀ t1 t2 : Nat, t1 ≤ t2 → t2 - t1 < 2 ^ 32 →
       usub32 (Clock.millisRead t2) (Clock.millisRead t1) = t2 - t1) := by
  constructor
  · intro t1 t2 h hlt
    unfold Clock.millisRead
    omega
  · intro t1 t2 h hlt
    unfold usub32 Clock.millisRead
    omega

/-- Witness for the amended C8 at concrete inputs: reads at 5 ms and
7 ms are ordered, and the unsigned subtraction of the reads at
2^32 - 1 ms and 2^32 + 3 ms (across the wrap) is the true 4 ms. -/
theorem c8_millis_32bit_wrap_witness :
    Clock.millisRead 5 ≤ Clock.millisRead 7 ∧
    usub32 (Clock.millisRead (2 ^ 32 + 3)) (Clock.millisRead (2 ^ 32 - 1)) =
      (2 ^ 32 + 3) - (2 ^ 32 - 1) := by
  exact ⟨c8_millis_32bit_wrap.1 5 7 (by decide) (by decide),
         c8_millis_32bit_wrap.2 (2 ^ 32 - 1) (2 ^ 32 + 3) (by decide) (by decide)⟩

end IoToys
